import Mathlib

/-!
Verification of the CO-PO mapping matrix generator.

The orchestration layer (`process_syllabus`) is translated from
`src/main.py`. The core subsystems it calls — `extract_cos` and
`process_text` from `utils/nlp_processor.py`, `generate_matrix` from
`utils/matrix_generator.py`, and the catalogue `PROGRAM_OUTCOMES` from
`data/program_outcomes.py` — are not among the repository files available,
so they are modelled from the specification (each such definition's doc
comment starts with "Modelled from the spec:").

Numeric scores are embedded as rationals (the code uses floats); text
processing is embedded on lists of characters.
-/

deriving instance DecidableEq for Except

/-! ## Character-list utilities -/

/-- Splits a character list at every occurrence of the character `c`
(the pieces do not contain `c`; `n` separators give `n + 1` pieces). -/
def splitCharList (c : Char) : List Char → List (List Char)
  | [] => [[]]
  | a :: as =>
    let r := splitCharList c as
    if a = c then [] :: r
    else
      match r with
      | [] => [[a]]
      | h :: t => (a :: h) :: t

/-- Removes leading and trailing whitespace characters. -/
def trimCl (l : List Char) : List Char :=
  ((l.dropWhile Char.isWhitespace).reverse.dropWhile Char.isWhitespace).reverse

/-- Lowercases every character. -/
def lowerCl (l : List Char) : List Char := l.map Char.toLower

/-- `startsWithCl p l` is true when `p` is an initial segment of `l`. -/
def startsWithCl : List Char → List Char → Bool
  | [], _ => true
  | _ :: _, [] => false
  | p :: ps, a :: as => p = a && startsWithCl ps as

/-- `containsCl p l` is true when `p` occurs contiguously inside `l`. -/
def containsCl (pat : List Char) : List Char → Bool
  | [] => startsWithCl pat []
  | a :: as => startsWithCl pat (a :: as) || containsCl pat as

/-! ## Data model -/

/-- An outcome record, used for both Course Outcomes and Program Outcomes
(spec section 3: id, description, cognitive K-level or empty). -/
structure Outcome where
  id : String
  description : String
  cognitive_level : String
deriving DecidableEq

/-- Modelled from the spec: `PROGRAM_OUTCOMES` (data/program_outcomes.py is
not among the available files) — "a fixed ordered catalogue of Program
Outcome records (id, description, cognitive level), supplied by
configuration, immutable for the process lifetime". The concrete texts
stand in for the real catalogue entries. -/
def PROGRAM_OUTCOMES : List Outcome :=
  [⟨"PO1", "Apply knowledge of mathematics science and engineering", "K3"⟩,
   ⟨"PO2", "Identify formulate and analyze complex engineering problems", "K4"⟩,
   ⟨"PO3", "Design solutions for complex engineering problems", "K6"⟩]

/-! ## CO extractor (spec section 4.2) -/

/-- Modelled from the spec: the heading pattern rule set of the CO extractor,
kept "as data (list of patterns)" (spec section 9). -/
def CO_SECTION_PATTERNS : List String := ["course outcomes", "course outcome"]

/-- A line is recognized as the Course Outcomes heading when it contains one
of the patterns, case-insensitively. -/
def isCOHeadingLine (l : List Char) : Bool :=
  CO_SECTION_PATTERNS.any (fun p => containsCl p.data (lowerCl l))

/-- Returns the lines after the first recognized CO heading, or `none` when
no line matches a heading pattern. -/
def findCOSectionLines : List (List Char) → Option (List (List Char))
  | [] => none
  | l :: ls => if isCOHeadingLine l then some ls else findCOSectionLines ls

/-- The itemized lines of the CO section: skip blank lines after the
heading, then take lines until the first blank line. -/
def itemLines (rest : List (List Char)) : List (List Char) :=
  (rest.dropWhile (fun l => (trimCl l).isEmpty)).takeWhile
    (fun l => !(trimCl l).isEmpty)

/-- The first Bloom's-level marker "(K<digit>)" embedded in the line, or ""
when absent (spec section 4.2). -/
def findKLevel : List Char → String
  | [] => ""
  | a :: rest =>
    match a, rest with
    | '(', 'K' :: d :: _ => if d.isDigit then String.mk ['K', d] else findKLevel rest
    | _, _ => findKLevel rest

/-- Characters treated as part of a leading enumerator or label. -/
def isEnumChar (c : Char) : Bool :=
  c.isDigit || c = '.' || c = ')' || c = ':' || c = '-' || c = ' '

/-- Strips a leading enumerator or "CO<n>"-style label from an item line
(spec section 4.2: "description = the outcome statement text with leading
enumerators/labels stripped"). -/
def stripLeadingEnum (l : List Char) : List Char :=
  let t := trimCl l
  let t1 :=
    match lowerCl t with
    | 'c' :: 'o' :: d :: _ => if d.isDigit then t.drop 2 else t
    | _ => t
  t1.dropWhile isEnumChar

/-- Builds the outcome record of one item line at 1-based position `n`. -/
def mkOutcomeFromLine (n : ℕ) (l : List Char) : Outcome :=
  { id := "CO" ++ toString n,
    description := String.mk (stripLeadingEnum l),
    cognitive_level := findKLevel l }

/-- Builds outcome records positionally, numbering from `n` upward. -/
def buildCOs : ℕ → List (List Char) → List Outcome
  | _, [] => []
  | n, l :: ls => mkOutcomeFromLine n l :: buildCOs (n + 1) ls

/-- Modelled from the spec: `extract_cos` (utils/nlp_processor.py is not
among the available files) — locates the Course Outcomes section by the
heading rule set, parses each itemized line into an `Outcome` with a
positional 1-based id, and returns the empty sequence when no recognizable
section exists; a total function, so malformed input never raises. -/
def extract_cos (text : String) : List Outcome :=
  match findCOSectionLines (splitCharList '\n' text.data) with
  | none => []
  | some rest => buildCOs 1 (itemLines rest)

/-- Whether the document has a line recognizable as a CO heading; the
extractor finds a section exactly on such documents. -/
def hasCOSection (text : String) : Bool :=
  (splitCharList '\n' text.data).any isCOHeadingLine

/-! ## Text preprocessor and similarity scorer (spec sections 4.1, 4.3) -/

/-- The pretrained language model as an injected capability (spec section 9):
tokenization, stopword table, lemmatizer, and the cosine of the aggregate
vector representations of two term sequences. The vector space itself is
kept abstract; only the resulting cosine value enters the computation. -/
structure NLPModel where
  tokenize : String → List String
  isStopWord : String → Bool
  lemmatize : String → String
  rawCosine : List String → List String → ℚ

/-- A token consisting only of alphabetic characters (and at least one). -/
def isAlphaToken (s : String) : Bool := !s.data.isEmpty && s.data.all Char.isAlpha

/-- Modelled from the spec: `process_text` (utils/nlp_processor.py is not
among the available files) — tokenizes, lowercases, strips non-alphabetic
tokens, removes stopwords and lemmatizes, preserving order and duplicates
(spec section 4.1). -/
def process_text (m : NLPModel) (text : String) : List String :=
  (((m.tokenize text).map (fun t => String.mk (lowerCl t.data))).filter
    (fun t => isAlphaToken t && !m.isStopWord t)).map m.lemmatize

/-- Modelled from the spec: the similarity scorer (utils/nlp_processor.py is
not among the available files) — preprocesses both inputs, returns 0 when
either term sequence is empty, and otherwise the model's cosine clamped
into [0, 1] (spec section 4.3). -/
def similarity (m : NLPModel) (a b : String) : ℚ :=
  if (process_text m a).isEmpty || (process_text m b).isEmpty then 0
  else min 1 (max 0 (m.rawCosine (process_text m a) (process_text m b)))

/-! ## Matrix generator (spec section 4.4) -/

/-- The configurable band count of the score discretization (spec section
4.4: "band boundaries and count are a configuration constant"). -/
def NUM_BANDS : ℕ := 3

/-- Modelled from the spec: the mapping-strength level of a score at or
above the threshold — equal-width bands over `[threshold, 1]`, represented
as the small integers `1 .. NUM_BANDS` (spec section 4.4 step 2). -/
def bandLevel (threshold score : ℚ) : ℕ :=
  if 1 ≤ score then NUM_BANDS
  else min NUM_BANDS (1 + (⌊(score - threshold) / (1 - threshold) * NUM_BANDS⌋).toNat)

/-- One cell of the mapping matrix: the mapping-level token when the score
clears the threshold, the empty string otherwise (spec section 4.4). -/
def mappingCell (m : NLPModel) (threshold : ℚ) (co po : Outcome) : String :=
  if threshold ≤ similarity m co.description po.description then
    toString (bandLevel threshold (similarity m co.description po.description))
  else ""

/-- The explainability report: threshold echoed verbatim, full score table,
per-CO preprocessed term sequences (spec section 3). -/
structure DebugReport where
  threshold : ℚ
  similarity_scores : List (String × List (String × ℚ))
  preprocessed_terms : List (String × List String)
deriving DecidableEq

/-- Modelled from the spec: `generate_matrix` (utils/matrix_generator.py is
not among the available files) — rejects a threshold outside [0, 1] and an
empty PO catalogue synchronously at the start with an invalid-argument
condition (spec sections 4.4 and 7), and otherwise assembles the row-major
cell grid and the debug report. Python's raised exception is embedded as
`Except.error`. -/
def generate_matrix (m : NLPModel) (cos pos : List Outcome) (threshold : ℚ) :
    Except String (List (List String) × DebugReport) :=
  if threshold < 0 ∨ 1 < threshold then
    Except.error "Invalid argument: threshold must be within [0, 1]"
  else if pos.isEmpty then
    Except.error "Invalid argument: empty PO catalogue"
  else
    Except.ok
      (cos.map (fun co => pos.map (fun po => mappingCell m threshold co po)),
       { threshold := threshold,
         similarity_scores := cos.map (fun co =>
           (co.id, pos.map (fun po =>
             (po.id, similarity m co.description po.description)))),
         preprocessed_terms := cos.map (fun co =>
           (co.id, process_text m co.description)) })

/-! ## Orchestration (src/main.py) -/

/-- `pd.to_numeric(…, errors='coerce')` applied to one matrix cell: the
empty string (and any non-numeric text) coerces to NaN, embedded as `none`;
a digit string parses to its value. The generator's cells are exactly the
empty string or a decimal level token, so digit parsing is the behavior
exercised. -/
def parseDigitsAux : ℕ → List Char → Option ℕ
  | acc, [] => some acc
  | acc, c :: cs =>
    if c.isDigit then parseDigitsAux (acc * 10 + (c.toNat - '0'.toNat)) cs else none

/-- See `parseDigitsAux`: the numeric value of a cell, `none` for the empty
string and for unparseable text (src/main.py line 39). -/
def to_numeric (s : String) : Option ℚ :=
  match s.data with
  | [] => none
  | l => (parseDigitsAux 0 l).map (fun n => (n : ℚ))

/-- Round half to even at integer precision, the rounding of Python's
`f"{x:.2f}"` formatting (applied after scaling by 100); the binary-float
rounding of the code is idealized as exact decimal rounding. -/
def roundHalfToEven (q : ℚ) : ℤ :=
  let f := ⌊q⌋
  let r := q - (f : ℚ)
  if r < 1 / 2 then f
  else if 1 / 2 < r then f + 1
  else if f % 2 = 0 then f else f + 1

/-- Two-digit zero padding of the fractional part. -/
def padTwo (n : ℕ) : String := if n < 10 then "0" ++ toString n else toString n

/-- `f"{q:.2f}"`: the value formatted with exactly two decimal places
(src/main.py line 41). -/
def formatTwoDec (q : ℚ) : String :=
  let c := roundHalfToEven (q * 100)
  (if c < 0 then "-" else "") ++ toString (c.natAbs / 100) ++ "." ++ padTwo (c.natAbs % 100)

/-- The synthetic trailing row of src/main.py lines 36-43: per column, the
cells are coerced to numbers (`to_numeric`), the mean skips the coerced
NaNs, and the result is formatted to two decimals — or the empty string
when the column has no parseable value (pandas' all-NaN mean is null). -/
def averagesRow (ncols : ℕ) (dataRows : List (List String)) : List String :=
  (List.range ncols).map (fun j =>
    if dataRows.filterMap (fun row => to_numeric (row.getD j "")) = [] then ""
    else formatTwoDec
      ((dataRows.filterMap (fun row => to_numeric (row.getD j ""))).sum /
        ((dataRows.filterMap (fun row => to_numeric (row.getD j ""))).length : ℚ)))

/-- The labeled matrix DataFrame of src/main.py lines 30-34 and 43: row
index, column index, and the grid of cell strings (data rows first, the
Average row last). -/
structure MatrixDF where
  rowLabels : List String
  colLabels : List String
  rows : List (List String)
deriving DecidableEq

/-- The results dictionary returned by `process_syllabus`
(src/main.py lines 53-58). -/
structure SyllabusResults where
  cos : List Outcome
  matrix : MatrixDF
  debug_info : DebugReport
  threshold : ℚ
deriving DecidableEq

/-- `process_syllabus` (src/main.py lines 20-61): extract the COs, return
`None` when there are none, generate the matrix over the fixed
`PROGRAM_OUTCOMES`, label rows `CO<i+1>` and columns `PO<i+1>` by position,
append the Average row, and return the results dictionary; the enclosing
`try`/`except` turns any internally raised exception (embedded as
`Except.error` from `generate_matrix`) into `None`. -/
def process_syllabus (m : NLPModel) (content : String) (threshold : ℚ) :
    Option SyllabusResults :=
  if (extract_cos content).isEmpty then none
  else
    match generate_matrix m (extract_cos content) PROGRAM_OUTCOMES threshold with
    | Except.error _ => none
    | Except.ok (matrix, debug_info) =>
      some { cos := extract_cos content,
             matrix :=
               { rowLabels :=
                   ((List.range (extract_cos content).length).map
                     (fun i => "CO" ++ toString (i + 1))) ++ ["Average"],
                 colLabels :=
                   (List.range PROGRAM_OUTCOMES.length).map
                     (fun i => "PO" ++ toString (i + 1)),
                 rows := matrix ++ [averagesRow PROGRAM_OUTCOMES.length matrix] },
             debug_info := debug_info,
             threshold := threshold }

/-! ## Concrete instances used to evaluate the development -/

/-- A deterministic stand-in for the pretrained model: every non-empty text
tokenizes to the single alphabetic token "term", nothing is a stopword,
lemmatization is the identity, and every cosine is 1. -/
def wModel : NLPModel where
  tokenize := fun s => if s = "" then [] else ["term"]
  isStopWord := fun _ => false
  lemmatize := fun s => s
  rawCosine := fun _ _ => 1

/-- A small syllabus document with a recognizable Course Outcomes section
and two itemized outcomes carrying K-level markers. -/
def sampleSyllabus : String :=
  "Course Outcomes\nUnderstand recursion (K2)\nApply sorting (K3)"

/-- The results record `process_syllabus wModel sampleSyllabus (1 / 2)`
evaluates to: every similarity is 1, so every cell carries the top band
"3" and every column average is "3.00". -/
def sampleResults : SyllabusResults where
  cos := [⟨"CO1", "Understand recursion (K2)", "K2"⟩,
          ⟨"CO2", "Apply sorting (K3)", "K3"⟩]
  matrix :=
    { rowLabels := ["CO1", "CO2", "Average"],
      colLabels := ["PO1", "PO2", "PO3"],
      rows := [["3", "3", "3"], ["3", "3", "3"], ["3.00", "3.00", "3.00"]] }
  debug_info :=
    { threshold := 1 / 2,
      similarity_scores :=
        [("CO1", [("PO1", 1), ("PO2", 1), ("PO3", 1)]),
         ("CO2", [("PO1", 1), ("PO2", 1), ("PO3", 1)])],
      preprocessed_terms := [("CO1", ["term"]), ("CO2", ["term"])] }
  threshold := 1 / 2

/-! ## Helper lemmas -/

/-- `getD` after `map`, inside the bounds. -/
theorem list_getD_map {α β : Type} (f : α → β) (d : β) (e : α) :
    ∀ (l : List α) (i : ℕ), i < l.length → (l.map f).getD i d = f (l.getD i e)
  | a :: as, 0, _ => rfl
  | a :: as, i + 1, h => list_getD_map f d e as i (by simpa using h)
  | [], i, h => absurd h (by simp)

/-- `getD` out of bounds is the fallback. -/
theorem list_getD_of_len_le {α : Type} (d : α) :
    ∀ (l : List α) (i : ℕ), l.length ≤ i → l.getD i d = d
  | [], i, _ => by cases i <;> rfl
  | a :: as, i + 1, h => list_getD_of_len_le d as i (by simpa using h)
  | a :: as, 0, h => absurd h (by simp)

/-- `getD` on `List.range`, inside the bounds. -/
theorem list_getD_range (d n i : ℕ) (h : i < n) : (List.range n).getD i d = i := by
  rw [List.getD_eq_getElem?_getD, List.getElem?_range h, Option.getD_some]

/-- When no line matches a heading pattern, no CO section is found. -/
theorem findCOSectionLines_eq_none (ls : List (List Char))
    (h : ls.any isCOHeadingLine = false) : findCOSectionLines ls = none := by
  induction ls with
  | nil => rfl
  | cons l ls ih =>
    simp only [List.any_cons, Bool.or_eq_false_iff] at h
    unfold findCOSectionLines
    rw [if_neg (by simp [h.1]), ih h.2]

/-- `buildCOs` yields one outcome per item line. -/
theorem buildCOs_length : ∀ (ls : List (List Char)) (n : ℕ),
    (buildCOs n ls).length = ls.length
  | [], _ => rfl
  | l :: ls, n => by simp [buildCOs, buildCOs_length ls (n + 1)]

/-- The id of the `k`-th outcome built from start index `n` is `CO<n + k>`. -/
theorem buildCOs_getD_id :
    ∀ (ls : List (List Char)) (n k : ℕ), k < ls.length →
      ((buildCOs n ls).getD k ⟨"", "", ""⟩).id = "CO" ++ toString (n + k)
  | l :: ls, n, 0, _ => by simp [buildCOs, mkOutcomeFromLine]
  | l :: ls, n, k + 1, h => by
    have ih := buildCOs_getD_id ls (n + 1) k (by simpa using h)
    have harith : n + 1 + k = n + (k + 1) := by omega
    rw [buildCOs]
    simpa [harith] using ih
  | [], _, k, h => absurd h (by simp)

/-- The band level is one of the three configured strength levels. -/
theorem bandLevel_cases (t s : ℚ) :
    bandLevel t s = 1 ∨ bandLevel t s = 2 ∨ bandLevel t s = 3 := by
  unfold bandLevel NUM_BANDS
  split
  · simp
  · omega

/-- A mapping-level token is never the empty string. -/
theorem toString_bandLevel_ne_empty (t s : ℚ) : toString (bandLevel t s) ≠ "" := by
  rcases bandLevel_cases t s with h | h | h <;> rw [h] <;> decide

/-! ## Claim theorems -/

/-- C3: for every threshold strictly outside [0, 1], `generate_matrix`
rejects the call with the invalid-argument condition at the start — the
result is the same error constant for every model and every input list, so
no similarity is computed and the threshold is never clamped or coerced. -/
theorem invalid_threshold_rejected (m : NLPModel) (cos pos : List Outcome) (t : ℚ)
    (h : t < 0 ∨ 1 < t) :
    generate_matrix m cos pos t =
      Except.error "Invalid argument: threshold must be within [0, 1]" := by
  unfold generate_matrix
  rw [if_pos h]

/-- C4: `extract_cos` is a total function (so no input ever raises), and on
every document with no recognizable Course Outcomes section — no line
matching a heading pattern — it returns the empty sequence. -/
theorem extract_cos_no_section_empty (text : String)
    (h : hasCOSection text = false) : extract_cos text = [] := by
  unfold hasCOSection at h
  unfold extract_cos
  rw [findCOSectionLines_eq_none _ h]

/-- C5: the id of the k-th outcome (0-based `k`, so 1-based position
`k + 1`) returned by `extract_cos` is exactly "CO" followed by `k + 1`,
regardless of any numbering present in the source text. -/
theorem extract_cos_ids_positional (text : String) (k : ℕ)
    (hk : k < (extract_cos text).length) :
    ((extract_cos text).getD k ⟨"", "", ""⟩).id = "CO" ++ toString (k + 1) := by
  unfold extract_cos at hk ⊢
  cases hfind : findCOSectionLines (splitCharList '\n' text.data) with
  | none => rw [hfind] at hk; simp at hk
  | some rest =>
    rw [hfind] at hk
    dsimp only at hk ⊢
    have hlen : k < (itemLines rest).length := by
      rw [buildCOs_length] at hk; exact hk
    have := buildCOs_getD_id (itemLines rest) 1 k hlen
    simpa [Nat.add_comm 1 k] using this

/-- C6: whenever preprocessing either input yields an empty term sequence,
`similarity` returns exactly 0 — a defined rational value (no exception is
modelled and no NaN exists), because the cosine of the degenerate vectors is
never computed. -/
theorem similarity_empty_terms_zero (m : NLPModel) (a b : String)
    (h : process_text m a = [] ∨ process_text m b = []) :
    similarity m a b = 0 := by
  unfold similarity
  rcases h with h | h <;> simp [h]

/-- C7: for every model and every pair of input strings, `similarity` lies
in the closed interval [0, 1]: the degenerate case returns 0 and otherwise
the cosine is clamped from below by 0 and from above by 1. -/
theorem similarity_in_unit_interval (m : NLPModel) (a b : String) :
    0 ≤ similarity m a b ∧ similarity m a b ≤ 1 := by
  unfold similarity
  split
  · exact ⟨le_refl 0, zero_le_one⟩
  · exact ⟨le_min zero_le_one (le_max_left 0 _), min_le_left 1 _⟩

/-- C8: two calls of `generate_matrix` with identical arguments (same model
handle, same outcome lists, same threshold) yield an identical matrix and an
identical debug report — in the embedding the generator is a pure function
of its arguments, with no hidden cross-call state. -/
theorem generate_matrix_deterministic (m : NLPModel) (cos pos : List Outcome) (t : ℚ)
    (mx1 mx2 : List (List String)) (d1 d2 : DebugReport)
    (h1 : generate_matrix m cos pos t = Except.ok (mx1, d1))
    (h2 : generate_matrix m cos pos t = Except.ok (mx2, d2)) :
    mx1 = mx2 ∧ d1 = d2 := by
  rw [h1] at h2
  simpa using h2

/-- C9: `process_syllabus` is a total function returning an optional result
(no exception reaches the caller), and it returns `none` exactly when
extraction yields no COs or `generate_matrix` signals an error (the Python
`except` branch swallows the exception); on every other input it returns a
results record. -/
theorem process_syllabus_none_iff (m : NLPModel) (content : String) (t : ℚ) :
    process_syllabus m content t = none ↔
      extract_cos content = [] ∨
        ∃ e, generate_matrix m (extract_cos content) PROGRAM_OUTCOMES t =
          Except.error e := by
  unfold process_syllabus
  split
  · next hemp =>
    simp only [List.isEmpty_iff] at hemp
    simp [hemp]
  · next hemp =>
    simp only [List.isEmpty_iff] at hemp
    cases hg : generate_matrix m (extract_cos content) PROGRAM_OUTCOMES t with
    | error e => simp [hg, hemp]
    | ok p => obtain ⟨mx, d⟩ := p; simp [hg, hemp]

/-- C10: whenever `process_syllabus` returns a results record, the matrix
DataFrame's row labels are exactly CO1..COn (n the number of extracted COs)
followed by "Average", and its column labels are exactly PO1..POm (m the
catalogue length) — generated purely from positions, so the id fields of
the outcome records play no role. -/
theorem matrix_labels_positional (m : NLPModel) (content : String) (t : ℚ)
    (r : SyllabusResults) (h : process_syllabus m content t = some r) :
    r.matrix.rowLabels =
      ((List.range (extract_cos content).length).map
        (fun i => "CO" ++ toString (i + 1))) ++ ["Average"] ∧
    r.matrix.colLabels =
      (List.range PROGRAM_OUTCOMES.length).map (fun i => "PO" ++ toString (i + 1)) := by
  unfold process_syllabus at h
  split at h
  · exact absurd h (by simp)
  · split at h
    · exact absurd h (by simp)
    · cases h
      exact ⟨rfl, rfl⟩

/-- C1: in every results record returned by `process_syllabus`, the trailing
Average row holds, per column, the arithmetic mean of the column's parseable
(numeric, non-empty) cells among the data rows — coerced-NaN cells excluded
— formatted to exactly two decimal places, and the empty string for a
column with no parseable value. -/
theorem average_row_is_columnwise_mean (m : NLPModel) (content : String) (t : ℚ)
    (r : SyllabusResults) (h : process_syllabus m content t = some r)
    (j : ℕ) (hj : j < r.matrix.colLabels.length) :
    (r.matrix.rows.getLastD []).getD j "" =
      (if r.matrix.rows.dropLast.filterMap (fun row => to_numeric (row.getD j "")) = []
       then ""
       else formatTwoDec
         ((r.matrix.rows.dropLast.filterMap (fun row => to_numeric (row.getD j ""))).sum /
          ((r.matrix.rows.dropLast.filterMap
              (fun row => to_numeric (row.getD j ""))).length : ℚ))) := by
  unfold process_syllabus at h
  split at h
  · exact absurd h (by simp)
  · split at h
    · exact absurd h (by simp)
    · next mx d hg =>
      cases h
      have hj' : j < PROGRAM_OUTCOMES.length := by
        simpa using hj
      simp only [List.getLastD_concat, List.dropLast_concat]
      unfold averagesRow
      rw [list_getD_map _ "" 0 _ j (by simpa using hj'), list_getD_range 0 _ j hj']

/-- C2: for one model and fixed CO and PO lists, if two thresholds satisfy
t1 < t2 and both calls succeed, then every cell that is non-empty in the
matrix generated at t2 is also non-empty in the matrix generated at t1 —
raising the threshold never adds a mapping. -/
theorem raising_threshold_never_adds_mapping (m : NLPModel) (cos pos : List Outcome)
    (t1 t2 : ℚ) (h12 : t1 < t2)
    (mx1 mx2 : List (List String)) (d1 d2 : DebugReport)
    (e1 : generate_matrix m cos pos t1 = Except.ok (mx1, d1))
    (e2 : generate_matrix m cos pos t2 = Except.ok (mx2, d2))
    (i j : ℕ) (hcell : (mx2.getD i []).getD j "" ≠ "") :
    (mx1.getD i []).getD j "" ≠ "" := by
  unfold generate_matrix at e1 e2
  split at e1
  · exact absurd e1 (by simp)
  split at e1
  · exact absurd e1 (by simp)
  split at e2
  · exact absurd e2 (by simp)
  rw [Except.ok.injEq, Prod.mk.injEq] at e1 e2
  obtain ⟨hmx1, -⟩ := e1
  obtain ⟨hmx2, -⟩ := e2
  subst hmx1
  subst hmx2
  by_cases hi : i < cos.length
  · by_cases hjb : j < pos.length
    · rw [list_getD_map _ [] ⟨"", "", ""⟩ _ i (by simpa using hi),
        list_getD_map _ "" ⟨"", "", ""⟩ _ j (by simpa using hjb)] at hcell
      rw [list_getD_map _ [] ⟨"", "", ""⟩ _ i (by simpa using hi),
        list_getD_map _ "" ⟨"", "", ""⟩ _ j (by simpa using hjb)]
      unfold mappingCell at hcell ⊢
      split at hcell
      · next hscore =>
        rw [if_pos (le_trans (le_of_lt h12) hscore)]
        exact toString_bandLevel_ne_empty _ _
      · exact absurd rfl hcell
    · exfalso
      apply hcell
      rw [list_getD_map _ [] ⟨"", "", ""⟩ _ i (by simpa using hi)]
      exact list_getD_of_len_le "" _ j (by simpa using Nat.le_of_not_lt hjb)
  · exfalso
    apply hcell
    rw [list_getD_of_len_le [] _ i (by simpa using Nat.le_of_not_lt hi)]
    rfl

/-! ## Witnesses: the theorems applied at concrete inputs -/

section ConcreteEvaluation

attribute [local semireducible] Rat.add Rat.mul Rat.sub Rat.inv Rat.ofScientific

set_option maxRecDepth 4000

/-- C3 at threshold 3/2: the call is rejected with the invalid-argument
error. -/
theorem invalid_threshold_rejected_witness :
    ((3 : ℚ) / 2 < 0 ∨ (1 : ℚ) < 3 / 2) ∧
      generate_matrix wModel [] [] (3 / 2) =
        Except.error "Invalid argument: threshold must be within [0, 1]" :=
  ⟨Or.inr (by decide),
   invalid_threshold_rejected wModel [] [] (3 / 2) (Or.inr (by decide))⟩

/-- C4 at a document with no CO heading: extraction returns the empty
sequence. -/
theorem extract_cos_no_section_empty_witness :
    hasCOSection "hello world" = false ∧ extract_cos "hello world" = [] :=
  ⟨by decide, extract_cos_no_section_empty "hello world" (by decide)⟩

/-- C5 at the sample syllabus, position k = 1: the second extracted outcome
has id "CO2". -/
theorem extract_cos_ids_positional_witness :
    1 < (extract_cos sampleSyllabus).length ∧
      ((extract_cos sampleSyllabus).getD 1 ⟨"", "", ""⟩).id = "CO" ++ toString (1 + 1) :=
  ⟨by decide, extract_cos_ids_positional sampleSyllabus 1 (by decide)⟩

/-- C6 at the empty document: preprocessing yields no terms and the score
is exactly 0. -/
theorem similarity_empty_terms_zero_witness :
    (process_text wModel "" = [] ∨ process_text wModel "deep" = []) ∧
      similarity wModel "" "deep" = 0 :=
  ⟨Or.inl (by decide),
   similarity_empty_terms_zero wModel "" "deep" (Or.inl (by decide))⟩

end ConcreteEvaluation

section ConcreteEvaluationTwo

attribute [local semireducible] Rat.add Rat.mul Rat.sub Rat.inv Rat.ofScientific

set_option maxRecDepth 8000

/-- C2 at thresholds 0 < 1/2 on a one-CO, one-PO instance: the cell is
non-empty at 1/2 and hence also at 0. -/
theorem raising_threshold_never_adds_mapping_witness :
    (0 : ℚ) < 1 / 2 ∧
    generate_matrix wModel [⟨"CO1", "alpha", ""⟩] [⟨"PO1", "beta", ""⟩] 0 =
      Except.ok ([["3"]],
        ⟨0, [("CO1", [("PO1", 1)])], [("CO1", ["term"])]⟩) ∧
    generate_matrix wModel [⟨"CO1", "alpha", ""⟩] [⟨"PO1", "beta", ""⟩] (1 / 2) =
      Except.ok ([["3"]],
        ⟨1 / 2, [("CO1", [("PO1", 1)])], [("CO1", ["term"])]⟩) ∧
    (([["3"]] : List (List String)).getD 0 []).getD 0 "" ≠ "" :=
  ⟨by decide, by decide, by decide,
   raising_threshold_never_adds_mapping wModel [⟨"CO1", "alpha", ""⟩]
     [⟨"PO1", "beta", ""⟩] 0 (1 / 2) (by decide) [["3"]] [["3"]]
     ⟨0, [("CO1", [("PO1", 1)])], [("CO1", ["term"])]⟩
     ⟨1 / 2, [("CO1", [("PO1", 1)])], [("CO1", ["term"])]⟩
     (by decide) (by decide) 0 0 (by decide)⟩

/-- C8 at a one-CO, one-PO instance: the two results of the repeated call
coincide. -/
theorem generate_matrix_deterministic_witness :
    generate_matrix wModel [⟨"CO1", "alpha", ""⟩] [⟨"PO1", "beta", ""⟩] (1 / 2) =
      Except.ok ([["3"]],
        ⟨1 / 2, [("CO1", [("PO1", 1)])], [("CO1", ["term"])]⟩) ∧
    (([["3"]] : List (List String)) = [["3"]] ∧
      (⟨1 / 2, [("CO1", [("PO1", 1)])], [("CO1", ["term"])]⟩ : DebugReport) =
        ⟨1 / 2, [("CO1", [("PO1", 1)])], [("CO1", ["term"])]⟩) :=
  ⟨by decide,
   generate_matrix_deterministic wModel [⟨"CO1", "alpha", ""⟩] [⟨"PO1", "beta", ""⟩]
     (1 / 2) [["3"]] [["3"]]
     ⟨1 / 2, [("CO1", [("PO1", 1)])], [("CO1", ["term"])]⟩
     ⟨1 / 2, [("CO1", [("PO1", 1)])], [("CO1", ["term"])]⟩
     (by decide) (by decide)⟩

/-- C10 at the sample syllabus: the row labels are CO1, CO2, Average and
the column labels are PO1, PO2, PO3, generated from positions. -/
theorem matrix_labels_positional_witness :
    process_syllabus wModel sampleSyllabus (1 / 2) = some sampleResults ∧
    (sampleResults.matrix.rowLabels =
      ((List.range (extract_cos sampleSyllabus).length).map
        (fun i => "CO" ++ toString (i + 1))) ++ ["Average"] ∧
     sampleResults.matrix.colLabels =
      (List.range PROGRAM_OUTCOMES.length).map (fun i => "PO" ++ toString (i + 1))) :=
  ⟨by decide,
   matrix_labels_positional wModel sampleSyllabus (1 / 2) sampleResults (by decide)⟩

/-- C1 at the sample syllabus, column 0: the data cells are "3" and "3", and
the Average entry is the two-decimal formatting of their mean, "3.00". -/
theorem average_row_is_columnwise_mean_witness :
    process_syllabus wModel sampleSyllabus (1 / 2) = some sampleResults ∧
    0 < sampleResults.matrix.colLabels.length ∧
    (sampleResults.matrix.rows.getLastD []).getD 0 "" = "3.00" :=
  ⟨by decide, by decide, by
    rw [average_row_is_columnwise_mean wModel sampleSyllabus (1 / 2) sampleResults
      (by decide) 0 (by decide)]
    decide⟩

end ConcreteEvaluationTwo
